import Mathlib

/-!
Verification of the query-resolution layer of `src/app/resources/ann.py`.

The Python module implements an approximate-nearest-neighbor (ANN) query
resource: a `Rec` result record with a derived similarity score, and an
`ANNResource` holding a loaded index (id list, id-to-ordinal mapping, an
ANNOY index handle), optional out-of-index (OOI) lookup strategies
(a dynamo table and a peer `ANNResource`), an optional fallback parent
resource, and the staleness/reload machinery.

The embedding below translates the module into executable Lean
definitions.  Floating-point numbers are modelled as rationals, the ANNOY
engine and the dynamo table as abstract function fields, and Python
exceptions as `Except` errors.  Definitions follow the source line by
line; the few places where the source's behavior lives in the missing
`app.io` module are modelled from the spec and marked as such.
-/

namespace AnnApp

/-- `Rec` (ann.py line 35): a single neighbor record with its identifier
and optional engine distance. -/
structure Rec where
  id_ : String
  dist : Option ℚ
deriving DecidableEq

/-- `Rec.score` (ann.py lines 41-50): `1 - dist/2` for ANNOY's angular
distance (valid on [0, 2]); `None` when `dist` is `None`. -/
def Rec.score (r : Rec) : Option ℚ :=
  match r.dist with
  | none => none
  | some d => some (1 - d / 2)

/-- Serialized record shape produced by `Rec.to_dict` (ann.py lines 52-58).
The outer `Option` on `dist`/`score` models presence of the dictionary key;
the inner one models a JSON null (a `None` distance). -/
structure RecDict where
  id : String
  dist : Option (Option ℚ)
  score : Option (Option ℚ)
deriving DecidableEq

/-- `Rec.to_dict` (ann.py lines 52-58): keys `dist` and `score` are included
only when the corresponding flag is set. -/
def Rec.to_dict (r : Rec) (incl_dist incl_score : Bool) : RecDict :=
  { id := r.id_,
    dist := if incl_dist then some r.dist else none,
    score := if incl_score then some r.score else none }

/-- The ANNOY index capabilities used by ann.py (`get_nns_by_vector`,
`get_nns_by_item`, `get_item_vector`), modelled as abstract functions.
The two search functions return (ordinal, distance) pairs; when the caller
does not request distances only the ordinals are used. -/
structure AnnoyIndex where
  get_nns_by_vector : List ℚ → Nat → List (Nat × ℚ)
  get_nns_by_item : Nat → Nat → List (Nat × ℚ)
  get_item_vector : Nat → List ℚ

/-- `ANNResource` state (ann.py lines 61-89): the loaded id list `ids`,
the id-to-ordinal mapping `ids_d`, the ANNOY index handle, the optional
OOI dynamo table (as lookup function, `get_dynamo_emb`), the optional OOI
peer resource `ooi_ann`, and the optional `fallback_parent`.

The final two fields model the staleness machinery whose implementation
lives in the missing `app.io` module.  Modelled from the spec:
`needs_reload` is the result of comparing the remote source timestamp with
the local copy (`needs_reload(self.path_tar, self.ts_read_utc)`), and
`reloaded` is the state that a `load(reload=True)` would install from the
remote source (absent when no fresh remote state is available). -/
inductive ANNResource : Type where
  | mk (ids : List String)
       (ids_d : String → Option Nat)
       (index : AnnoyIndex)
       (ooi_dynamo_table : Option (String → Option (List ℚ)))
       (ooi_ann : Option ANNResource)
       (fallback_parent : Option ANNResource)
       (needs_reload : Bool)
       (reloaded : Option ANNResource)

def ANNResource.ids : ANNResource → List String
  | .mk ids _ _ _ _ _ _ _ => ids

def ANNResource.ids_d : ANNResource → String → Option Nat
  | .mk _ d _ _ _ _ _ _ => d

def ANNResource.index : ANNResource → AnnoyIndex
  | .mk _ _ i _ _ _ _ _ => i

def ANNResource.ooi_dynamo_table : ANNResource → Option (String → Option (List ℚ))
  | .mk _ _ _ t _ _ _ _ => t

def ANNResource.ooi_ann : ANNResource → Option ANNResource
  | .mk _ _ _ _ o _ _ _ => o

def ANNResource.fallback_parent : ANNResource → Option ANNResource
  | .mk _ _ _ _ _ f _ _ => f

def ANNResource.needs_reload : ANNResource → Bool
  | .mk _ _ _ _ _ _ n _ => n

def ANNResource.reloaded : ANNResource → Option ANNResource
  | .mk _ _ _ _ _ _ _ r => r

/-- The exceptions raised by ann.py, by raise site:
`ooiDynamoMissing` = "Q is ooi and doesnt exist in the ooi dynamo table"
(line 166), `ooiAnnMissing` = "Q is ooi and doesnt exist in the ooi ann"
(line 174), `noOoi` = "Q is ooi and no ooi dynamo table was set" (line 181),
`invalidPayload` = "Payload must contain `id` or `emb`" (line 205). -/
inductive AnnError where
  | ooiDynamoMissing
  | ooiAnnMissing
  | noOoi
  | invalidPayload
deriving DecidableEq

/-- `ANNResource.recs_via_ann_out` (ann.py lines 129-142): build `Rec`
objects from engine output; distances attach only when requested.  An
out-of-range ordinal (which would raise in Python) resolves to the empty
identifier. -/
def recs_via_ann_out (r : ANNResource) (ann_out : List (Nat × ℚ)) (incl_dist : Bool) :
    List Rec :=
  ann_out.map (fun pr => ⟨r.ids.getD pr.1 "", if incl_dist then some pr.2 else none⟩)

/-- `ANNResource.nn_from_emb` (ann.py lines 144-150): query the engine by
vector for `k` results. -/
def nn_from_emb (r : ANNResource) (q_emb : List ℚ) (k : Nat) (incl_dist : Bool) : List Rec :=
  recs_via_ann_out r (r.index.get_nns_by_vector q_emb k) incl_dist

/-- `ANNResource.get_vector` (ann.py lines 220-232): return the stored
vector for an in-index identifier, else consult the dynamo table (its
`None` is returned as-is here, unlike in `nn_from_id`), else recurse into
the OOI peer resource, else `None`. -/
def get_vector : ANNResource → String → Option (List ℚ)
  | .mk _ ids_d index ooi_dynamo ooi_ann _ _ _, q_id =>
    match ids_d q_id with
    | some q_ind => some (index.get_item_vector q_ind)
    | none =>
      match ooi_dynamo with
      | some tbl => tbl q_id
      | none =>
        match ooi_ann with
        | some peer => get_vector peer q_id
        | none => none

/-- `ANNResource.nn_from_id` (ann.py lines 152-185).  For an in-index
identifier the engine is asked for `k + 1` results by ordinal; for an
out-of-index identifier the dynamo table is consulted if configured
(raising when it returns absent), otherwise the OOI peer resource if
configured (raising when it returns absent), otherwise the no-strategy
error is raised.  The final filter removing the query identifier (line
183) applies to every branch. -/
def nn_from_id (r : ANNResource) (q_id : String) (k : Nat) (incl_dist : Bool) :
    Except AnnError (List Rec) :=
  match r.ids_d q_id with
  | some q_ind =>
    .ok ((recs_via_ann_out r (r.index.get_nns_by_item q_ind (k + 1)) incl_dist).filter
      (fun n => n.id_ != q_id))
  | none =>
    match r.ooi_dynamo_table with
    | some tbl =>
      match tbl q_id with
      | none => .error .ooiDynamoMissing
      | some q_emb =>
        .ok ((nn_from_emb r q_emb k incl_dist).filter (fun n => n.id_ != q_id))
    | none =>
      match r.ooi_ann with
      | some peer =>
        match get_vector peer q_id with
        | none => .error .ooiAnnMissing
        | some q_emb =>
          .ok ((nn_from_emb r q_emb k incl_dist).filter (fun n => n.id_ != q_id))
      | none => .error .noOoi

/-- The request payload consumed by `nn_from_payload` (ann.py lines
187-194): optional `id` and `emb` keys, required `k`, the two boolean
flags already coerced to booleans, and the raw optional `thresh_score`. -/
structure Payload where
  id? : Option String
  emb? : Option (List ℚ)
  k : Nat
  incl_dist : Bool
  incl_score : Bool
  thresh_score : Option ℚ
deriving DecidableEq

/-- Parsing of `thresh_score` (ann.py line 193):
`thresh_score = float(thresh_score) if thresh_score else False`.
A missing threshold and a (Python-falsy) zero threshold both disable
filtering; the result is `none` for disabled, `some t` for an active
threshold. -/
def effThresh (p : Payload) : Option ℚ :=
  match p.thresh_score with
  | none => none
  | some t => if t = 0 then none else some t

/-- `include_distances = bool(incl_dist or incl_score or thresh_score)`
(ann.py line 194), with `thresh_score` in its parsed float-or-False form. -/
def includeDistances (p : Payload) : Bool :=
  p.incl_dist || p.incl_score || (effThresh p).isSome

/-- The threshold predicate `n.score > thresh_score` (ann.py line 216).
A `None` score would raise a TypeError in Python; that branch is
unreachable because an active threshold forces `include_distances`, so
every produced `Rec` carries a distance.  It is modelled as `false`. -/
def passesThresh (t : ℚ) (n : Rec) : Bool :=
  match n.score with
  | some s => t < s
  | none => false

/-- The `id`/`emb` dispatch of `nn_from_payload` (ann.py lines 196-205):
an `id` key takes the identifier path (even when `emb` is also present),
else an `emb` key takes the vector path, else the payload is invalid. -/
def primaryNeighbors (r : ANNResource) (p : Payload) : Except AnnError (List Rec) :=
  match p.id? with
  | some q_id => nn_from_id r q_id p.k (includeDistances p)
  | none =>
    match p.emb? with
    | some q_emb => .ok (nn_from_emb r q_emb p.k (includeDistances p))
    | none => .error .invalidPayload

/-- The tail of `nn_from_payload` (ann.py lines 215-218): threshold
filtering when a threshold is active, then truncation to `k`. -/
def finalize (p : Payload) (combined : List Rec) : List Rec :=
  match effThresh p with
  | some t => (combined.filter (passesThresh t)).take p.k
  | none => combined.take p.k

/-- `ANNResource.nn_from_payload` (ann.py lines 187-218): resolve the
primary query; when it yields fewer than `k` neighbors and a fallback
parent is set, recursively resolve the same payload with `k` replaced by
the deficit against the parent (ann.py lines 209-213) and append; a
fallback error propagates (no try/except in the source).  Finally apply
the threshold filter if active and truncate to `k`. -/
def nn_from_payload : ANNResource → Payload → Except AnnError (List Rec)
  | .mk ids ids_d index dyn ooi fb nr rel, p =>
    match primaryNeighbors (.mk ids ids_d index dyn ooi fb nr rel) p with
    | .error e => .error e
    | .ok neighbors =>
      match fb, decide (neighbors.length < p.k) with
      | some parent, true =>
        match nn_from_payload parent { p with k := p.k - neighbors.length } with
        | .error e => .error e
        | .ok nf => .ok (finalize p (neighbors ++ nf))
      | some _, false => .ok (finalize p neighbors)
      | none, _ => .ok (finalize p neighbors)

/-- Replace only the staleness-related state of a resource (the
`needs_reload` flag and the pending `reloaded` state), leaving the loaded
query state untouched. -/
def setStale : ANNResource → Bool → Option ANNResource → ANNResource
  | .mk a b c d e f _ _, nr, rel => .mk a b c d e f nr rel

/-- `ANNResource.maybe_reload` (ann.py lines 124-127): reload when stale.
Modelled from the spec: the effect of `load(reload=True)` (implemented in
the missing `app.io` module) is to install the fresh remote state,
abstracted by the `reloaded` field; when no fresh state is available the
resource is left unchanged. -/
def maybe_reload (r : ANNResource) : ANNResource :=
  if r.needs_reload then r.reloaded.getD r else r

/-- Body of the HTTP response of the POST endpoint (ann.py lines 244-247
and 257): either the `recs`/`id_type` result object or the bare empty
list written by the exception handler. -/
inductive RespBody where
  | result (recs : List RecDict) (id_type : String)
  | emptyList
deriving DecidableEq

/-- An HTTP response: status code and body. -/
structure Response where
  status : Nat
  body : RespBody
deriving DecidableEq

/-- `ANNResource.on_post` (ann.py lines 234-258).  The request is the
result of `json.load` (which may itself fail, modelled by `Except Unit`).
Any exception — parse failure or any error out of `nn_from_payload` — is
caught and answered with status 200 and an empty list body; success is
answered with status 200 and the serialized records. -/
def on_post (r : ANNResource) (req : Except Unit Payload) : Response :=
  match req with
  | .error _ => ⟨200, .emptyList⟩
  | .ok p =>
    match nn_from_payload r p with
    | .error _ => ⟨200, .emptyList⟩
    | .ok neighbors =>
      ⟨200, .result (neighbors.map (fun n => n.to_dict p.incl_dist p.incl_score)) "-"⟩

/-- Modelled from the spec: the backfill recursion of section 4.4 with the
threshold step removed from every level ("recursively resolve the same
original query against `fallbackParent` requesting only the deficit",
with truncation per level but no per-level threshold filtering). -/
def nn_backfill_raw : ANNResource → Payload → Except AnnError (List Rec)
  | .mk ids ids_d index dyn ooi fb nr rel, p =>
    match primaryNeighbors (.mk ids ids_d index dyn ooi fb nr rel) p with
    | .error e => .error e
    | .ok neighbors =>
      match fb, decide (neighbors.length < p.k) with
      | some parent, true =>
        match nn_backfill_raw parent { p with k := p.k - neighbors.length } with
        | .error e => .error e
        | .ok nf => .ok ((neighbors ++ nf).take p.k)
      | some _, false => .ok (neighbors.take p.k)
      | none, _ => .ok (neighbors.take p.k)

/-- Modelled from the spec: the reading of the spec in which the threshold
filter is "applied exactly once, globally after backfill completes" —
backfill without per-level filtering, then one global threshold filter,
then truncation. -/
def nn_from_payload_once (r : ANNResource) (p : Payload) : Except AnnError (List Rec) :=
  match nn_backfill_raw r p with
  | .error e => .error e
  | .ok l =>
    match effThresh p with
    | some t => .ok ((l.filter (passesThresh t)).take p.k)
    | none => .ok (l.take p.k)

/-! ### Helper lemmas -/

/-- Unfolding of `nn_from_payload` in terms of the field accessors. -/
theorem nn_from_payload_eq (r : ANNResource) (p : Payload) :
    nn_from_payload r p =
      match primaryNeighbors r p with
      | .error e => .error e
      | .ok neighbors =>
        if neighbors.length < p.k then
          match r.fallback_parent with
          | some parent =>
            match nn_from_payload parent { p with k := p.k - neighbors.length } with
            | .error e => .error e
            | .ok nf => .ok (finalize p (neighbors ++ nf))
          | none => .ok (finalize p neighbors)
        else .ok (finalize p neighbors) := by
  cases r with
  | mk ids ids_d index dyn ooi fb nr rel =>
    simp only [nn_from_payload, ANNResource.fallback_parent]
    cases hpn : primaryNeighbors (.mk ids ids_d index dyn ooi fb nr rel) p with
    | error e => rfl
    | ok neighbors =>
      simp only []
      by_cases hl : neighbors.length < p.k
      · rw [if_pos hl]
        simp only [decide_eq_true hl]
        cases fb <;> rfl
      · rw [if_neg hl]
        simp only [decide_eq_false hl]
        cases fb <;> rfl

/-- Unfolding of `nn_backfill_raw` in terms of the field accessors. -/
theorem nn_backfill_raw_eq (r : ANNResource) (p : Payload) :
    nn_backfill_raw r p =
      match primaryNeighbors r p with
      | .error e => .error e
      | .ok neighbors =>
        if neighbors.length < p.k then
          match r.fallback_parent with
          | some parent =>
            match nn_backfill_raw parent { p with k := p.k - neighbors.length } with
            | .error e => .error e
            | .ok nf => .ok ((neighbors ++ nf).take p.k)
          | none => .ok (neighbors.take p.k)
        else .ok (neighbors.take p.k) := by
  cases r with
  | mk ids ids_d index dyn ooi fb nr rel =>
    simp only [nn_backfill_raw, ANNResource.fallback_parent]
    cases hpn : primaryNeighbors (.mk ids ids_d index dyn ooi fb nr rel) p with
    | error e => rfl
    | ok neighbors =>
      simp only []
      by_cases hl : neighbors.length < p.k
      · rw [if_pos hl]
        simp only [decide_eq_true hl]
        cases fb <;> rfl
      · rw [if_neg hl]
        simp only [decide_eq_false hl]
        cases fb <;> rfl

/-- Two payloads that agree on everything `nn_from_payload` inspects:
identifier, requested count, the derived `include_distances` flag, the
parsed threshold, and (unless an identifier is present) the vector. -/
def PayloadEquiv (p p' : Payload) : Prop :=
  p.id? = p'.id? ∧ p.k = p'.k ∧ includeDistances p = includeDistances p' ∧
  effThresh p = effThresh p' ∧ (p.id?.isSome = true ∨ p.emb? = p'.emb?)

theorem primaryNeighbors_congr (r : ANNResource) (p p' : Payload) (h : PayloadEquiv p p') :
    primaryNeighbors r p = primaryNeighbors r p' := by
  obtain ⟨h1, h2, h3, h4, h5⟩ := h
  unfold primaryNeighbors
  rw [h1, h2, h3]
  cases hid : p'.id? with
  | some q => rfl
  | none =>
    rcases h5 with h5 | h5
    · rw [h1, hid] at h5; simp at h5
    · rw [h5]

theorem finalize_congr (p p' : Payload) (l : List Rec) (h2 : p.k = p'.k)
    (h4 : effThresh p = effThresh p') : finalize p l = finalize p' l := by
  unfold finalize
  rw [h2, h4]

theorem subEquiv (p p' : Payload) (h : PayloadEquiv p p') (m : Nat) :
    PayloadEquiv { p with k := p.k - m } { p' with k := p'.k - m } := by
  obtain ⟨h1, h2, h3, h4, h5⟩ := h
  exact ⟨h1, by rw [h2], h3, h4, h5⟩

/-- `nn_from_payload` only depends on a payload through the components of
`PayloadEquiv`. -/
theorem nn_from_payload_congr :
    ∀ (r : ANNResource) (p p' : Payload), PayloadEquiv p p' →
      nn_from_payload r p = nn_from_payload r p' := by
  intro r p
  induction r, p using nn_from_payload.induct with
  | case1 ids ids_d index dyn ooi fb nr rel p e hpn =>
    intro p' h
    have hpn' := hpn
    rw [primaryNeighbors_congr _ p p' h] at hpn'
    rw [nn_from_payload_eq (.mk ids ids_d index dyn ooi fb nr rel) p,
        nn_from_payload_eq (.mk ids ids_d index dyn ooi fb nr rel) p', hpn, hpn']
  | case2 ids ids_d index dyn ooi nr rel p nf parent hd e herr hpn ih =>
    intro p' h
    obtain ⟨h1, h2, h3, h4, h5⟩ := h
    have hpn' := hpn
    rw [primaryNeighbors_congr _ p p' ⟨h1, h2, h3, h4, h5⟩] at hpn'
    have hlt : nf.length < p.k := of_decide_eq_true hd
    have hrec := ih { p' with k := p'.k - nf.length } (subEquiv p p' ⟨h1, h2, h3, h4, h5⟩ nf.length)
    rw [nn_from_payload_eq (.mk ids ids_d index dyn ooi (some parent) nr rel) p,
        nn_from_payload_eq (.mk ids ids_d index dyn ooi (some parent) nr rel) p', hpn, hpn']
    simp only []
    rw [if_pos hlt, if_pos (h2 ▸ hlt)]
    simp only [ANNResource.fallback_parent]
    rw [hrec]
    cases nn_from_payload parent { p' with k := p'.k - nf.length } with
    | error e => rfl
    | ok nf1 =>
      simp only
      rw [finalize_congr p p' _ h2 h4]
  | case3 ids ids_d index dyn ooi nr rel p nf parent hd nf1 hok hpn ih =>
    intro p' h
    obtain ⟨h1, h2, h3, h4, h5⟩ := h
    have hpn' := hpn
    rw [primaryNeighbors_congr _ p p' ⟨h1, h2, h3, h4, h5⟩] at hpn'
    have hlt : nf.length < p.k := of_decide_eq_true hd
    have hrec := ih { p' with k := p'.k - nf.length } (subEquiv p p' ⟨h1, h2, h3, h4, h5⟩ nf.length)
    rw [nn_from_payload_eq (.mk ids ids_d index dyn ooi (some parent) nr rel) p,
        nn_from_payload_eq (.mk ids ids_d index dyn ooi (some parent) nr rel) p', hpn, hpn']
    simp only []
    rw [if_pos hlt, if_pos (h2 ▸ hlt)]
    simp only [ANNResource.fallback_parent]
    rw [hrec]
    cases nn_from_payload parent { p' with k := p'.k - nf.length } with
    | error e => rfl
    | ok nf2 =>
      simp only
      rw [finalize_congr p p' _ h2 h4]
  | case4 ids ids_d index dyn ooi nr rel p nf parent hd hpn =>
    intro p' h
    obtain ⟨h1, h2, h3, h4, h5⟩ := h
    have hpn' := hpn
    rw [primaryNeighbors_congr _ p p' ⟨h1, h2, h3, h4, h5⟩] at hpn'
    have hlt : ¬ nf.length < p.k := of_decide_eq_false hd
    rw [nn_from_payload_eq (.mk ids ids_d index dyn ooi (some parent) nr rel) p,
        nn_from_payload_eq (.mk ids ids_d index dyn ooi (some parent) nr rel) p', hpn, hpn']
    simp only []
    rw [if_neg hlt, if_neg (h2 ▸ hlt)]
    rw [finalize_congr p p' _ h2 h4]
  | case5 ids ids_d index dyn ooi nr rel p nf hpn =>
    intro p' h
    obtain ⟨h1, h2, h3, h4, h5⟩ := h
    have hpn' := hpn
    rw [primaryNeighbors_congr _ p p' ⟨h1, h2, h3, h4, h5⟩] at hpn'
    rw [nn_from_payload_eq (.mk ids ids_d index dyn ooi none nr rel) p,
        nn_from_payload_eq (.mk ids ids_d index dyn ooi none nr rel) p', hpn, hpn']
    simp only [ANNResource.fallback_parent, ite_self]
    rw [finalize_congr p p' _ h2 h4]

/-- A record passing the threshold predicate has a present score strictly
above the threshold. -/
theorem passesThresh_spec (t : ℚ) (n : Rec) (h : passesThresh t n = true) :
    ∃ s, n.score = some s ∧ t < s := by
  unfold passesThresh at h
  cases hs : n.score with
  | none => rw [hs] at h; cases h
  | some s =>
    rw [hs] at h
    exact ⟨s, rfl, of_decide_eq_true h⟩

/-- With an active threshold, everything `finalize` keeps passes the
threshold predicate. -/
theorem mem_finalize (p : Payload) (t : ℚ) (ht : effThresh p = some t) (l : List Rec)
    (n : Rec) (hn : n ∈ finalize p l) : passesThresh t n = true := by
  unfold finalize at hn
  rw [ht] at hn
  exact (List.mem_filter.mp (List.take_subset _ _ hn)).2

/-! ### Concrete fixtures used by witnesses and counterexamples -/

/-- An engine with no content. -/
def idx0 : AnnoyIndex := ⟨fun _ _ => [], fun _ _ => [], fun _ => []⟩

/-- Engine of the C1 fallback parent: ordinal 0 with its self-match and one
neighbor. -/
def idxFb1 : AnnoyIndex :=
  ⟨fun _ _ => [], fun i m => if i = 0 ∧ m = 2 then [(0, 0), (1, 0)] else [], fun _ => []⟩

/-- C1 fallback parent: contains the query identifier `Z` and can answer
the query. -/
def rFb1 : ANNResource :=
  .mk ["Z", "w"] (fun s => if s = "Z" then some 0 else none) idxFb1 none none none false none

/-- C1 primary resource: `Z` is out of index, no OOI strategies, fallback
parent configured. -/
def r1 : ANNResource :=
  .mk ["a"] (fun s => if s = "a" then some 0 else none) idx0 none none (some rFb1) false none

/-- C1 query: by identifier `Z`, `k = 1`. -/
def p1 : Payload := ⟨some "Z", none, 1, false, false, none⟩

/-- Engine whose `get_item_vector` returns a concrete vector. -/
def idxVec : AnnoyIndex := ⟨fun _ _ => [], fun _ _ => [], fun _ => [1, 0, 0]⟩

/-- C2 peer resource: holds `Z` and a vector for it. -/
def peer2 : ANNResource :=
  .mk ["Z"] (fun s => if s = "Z" then some 0 else none) idxVec none none none false none

/-- C2 resource: a dynamo table that answers absent for everything, plus a
configured peer resource that could resolve `Z`. -/
def r2 : ANNResource :=
  .mk ["b"] (fun s => if s = "b" then some 0 else none) idx0 (some (fun _ => none))
    (some peer2) none false none

/-- Engine for C4/C6: ordinal 0 with its self-match and one neighbor. -/
def idx4 : AnnoyIndex :=
  ⟨fun _ _ => [], fun i m => if i = 0 ∧ m = 2 then [(0, 0), (1, 1)] else [], fun _ => []⟩

/-- C4/C6 resource: ids `q` (ordinal 0) and `w` (ordinal 1). -/
def r4 : ANNResource :=
  .mk ["q", "w"] (fun s => if s = "q" then some 0 else none) idx4 none none none false none

/-- Engine for C10: one result at distance 2 (score 0) for `k = 1` vector
queries. -/
def idx10 : AnnoyIndex :=
  ⟨fun _ m => if m = 1 then [(0, 2)] else [], fun _ _ => [], fun _ => []⟩

/-- C10 resource. -/
def r10 : ANNResource :=
  .mk ["a"] (fun s => if s = "a" then some 0 else none) idx10 none none none false none

/-- C10 query: vector query with distances requested and `thresh_score = 0`. -/
def p10 : Payload := ⟨none, some [1], 1, true, false, some 0⟩

/-! ### Claims -/

/-- C1: the spec claims that when out-of-index vector resolution fails the
overall query fails only if no fallback parent is configured.  In the code
the exception raised inside `nn_from_id` propagates out of
`nn_from_payload` unconditionally — the fallback block (lines 209-213) is
reached only after a successful primary resolution.  Amended claim: an OOI
resolution error makes the whole query fail with that error, for every
resource, fallback parent or not. -/
theorem C1_amended_ooi_error_propagates (r : ANNResource) (p : Payload) (q_id : String)
    (e : AnnError) (hid : p.id? = some q_id)
    (herr : nn_from_id r q_id p.k (includeDistances p) = .error e) :
    nn_from_payload r p = .error e := by
  rw [nn_from_payload_eq]
  simp only [primaryNeighbors, hid, herr]

/-- C1 witness: on the concrete fixture, the amended claim applies and the
query errors. -/
theorem C1_witness : nn_from_payload r1 p1 = .error .noOoi :=
  C1_amended_ooi_error_propagates r1 p1 "Z" .noOoi rfl (by
    simp [nn_from_id, r1, p1, includeDistances, effThresh,
      ANNResource.ids_d, ANNResource.ooi_dynamo_table, ANNResource.ooi_ann])

/-- C1 counterexample to the claim as stated: `Z` is out of `r1`'s index
with no OOI strategy, a fallback parent is configured and could itself
answer the query, yet the overall query fails. -/
theorem C1_counterexample :
    r1.fallback_parent = some rFb1 ∧
    nn_from_payload rFb1 p1 = .ok [⟨"w", none⟩] ∧
    nn_from_payload r1 p1 = .error .noOoi := by
  refine ⟨rfl, ?_, ?_⟩
  · simp [nn_from_payload, primaryNeighbors, nn_from_id, nn_from_emb, recs_via_ann_out,
      finalize, effThresh, includeDistances, rFb1, idxFb1, p1,
      ANNResource.ids, ANNResource.ids_d, ANNResource.index,
      ANNResource.ooi_dynamo_table, ANNResource.ooi_ann]
  · simp [nn_from_payload, primaryNeighbors, nn_from_id, r1, p1, includeDistances, effThresh,
      ANNResource.ids_d, ANNResource.ooi_dynamo_table, ANNResource.ooi_ann]

/-- C2: the spec claims the configured OOI strategies are tried in order
with the first present vector winning, so an absent table entry falls
through to a configured peer index.  In the code the strategies are an
`elif` chain selected by configuration, not by outcome: when a dynamo
table is configured and returns absent, `nn_from_id` raises immediately
and the peer index is never consulted.  Amended claim: if the identifier
is out of index, a dynamo table is configured and it returns absent, the
resolution fails with the table-miss error no matter what peer index is
configured. -/
theorem C2_amended_table_absent_fails (r : ANNResource) (q_id : String) (k : Nat) (b : Bool)
    (tbl : String → Option (List ℚ)) (hids : r.ids_d q_id = none)
    (htbl : r.ooi_dynamo_table = some tbl) (habs : tbl q_id = none) :
    nn_from_id r q_id k b = .error .ooiDynamoMissing := by
  simp only [nn_from_id, hids, htbl, habs]

/-- C2 witness: on the concrete fixture the amended claim applies. -/
theorem C2_witness : nn_from_id r2 "Z" 1 false = .error .ooiDynamoMissing :=
  C2_amended_table_absent_fails r2 "Z" 1 false (fun _ => none)
    (by simp [r2, ANNResource.ids_d]) rfl rfl

/-- C2 counterexample to the claim as stated: the peer resource is
configured and resolves `Z` to a vector, the table returns absent, yet
resolution fails with the table-miss error instead of consulting the
peer. -/
theorem C2_counterexample :
    r2.ooi_ann = some peer2 ∧
    get_vector peer2 "Z" = some [1, 0, 0] ∧
    (∃ tbl, r2.ooi_dynamo_table = some tbl ∧ tbl "Z" = none) ∧
    nn_from_id r2 "Z" 1 false = .error .ooiDynamoMissing := by
  refine ⟨rfl, ?_, ⟨fun _ => none, rfl, rfl⟩, ?_⟩
  · simp [get_vector, peer2, idxVec]
  · simp [nn_from_id, r2, ANNResource.ids_d, ANNResource.ooi_dynamo_table]

/-- C4: for an identifier present in the index, the search asks the engine
for `k + 1` results by ordinal and the final result never contains the
query identifier itself (the filter at line 183 removes every record
equal to it). -/
theorem C4_self_match_excluded (r : ANNResource) (q_id : String) (k : Nat) (b : Bool)
    (q_ind : Nat) (hk : 1 ≤ k) (hid : r.ids_d q_id = some q_ind) :
    ∃ l, nn_from_id r q_id k b = .ok l ∧
      l = (recs_via_ann_out r (r.index.get_nns_by_item q_ind (k + 1)) b).filter
            (fun n => n.id_ != q_id) ∧
      ∀ n ∈ l, n.id_ ≠ q_id := by
  refine ⟨_, by simp only [nn_from_id, hid], rfl, ?_⟩
  intro n hn
  have hkeep := (List.mem_filter.mp hn).2
  simpa [bne_iff_ne] using hkeep

/-- C4 witness: on the concrete fixture the engine is asked for 2 results
(`k + 1` for `k = 1`), the self-match is dropped, and `q` is absent from
its own neighbor list. -/
theorem C4_witness :
    ∃ l, nn_from_id r4 "q" 1 false = .ok l ∧
      l = (recs_via_ann_out r4 (r4.index.get_nns_by_item 0 2) false).filter
            (fun n => n.id_ != "q") ∧
      ∀ n ∈ l, n.id_ ≠ "q" :=
  C4_self_match_excluded r4 "q" 1 false 0 (by norm_num) (by simp [r4, ANNResource.ids_d])

/-- C9: the similarity score is the pure function `1 - d / 2` of the
distance, absent exactly when the distance is absent, with `score 0 = 1`,
`score 2 = 0`, and monotonically decreasing on `[0, 2]`. -/
theorem C9_score_contract (i : String) :
    (∀ d : ℚ, (Rec.mk i (some d)).score = some (1 - d / 2)) ∧
    (Rec.mk i none).score = none ∧
    (Rec.mk i (some 0)).score = some 1 ∧
    (Rec.mk i (some 2)).score = some 0 ∧
    (∀ d₁ d₂ s₁ s₂ : ℚ, 0 ≤ d₁ → d₁ ≤ d₂ → d₂ ≤ 2 →
      (Rec.mk i (some d₁)).score = some s₁ → (Rec.mk i (some d₂)).score = some s₂ →
      s₂ ≤ s₁) := by
  refine ⟨fun d => rfl, rfl, by norm_num [Rec.score], by norm_num [Rec.score], ?_⟩
  intro d₁ d₂ s₁ s₂ h0 h12 h2 hs₁ hs₂
  simp only [Rec.score, Option.some.injEq] at hs₁ hs₂
  subst hs₁
  subst hs₂
  linarith

/-- C9 witness: the contract applied at distances 1 and 2. -/
theorem C9_witness :
    (Rec.mk "a" (some 2)).score = some 0 ∧
    ∃ s₁ s₂ : ℚ, (Rec.mk "a" (some 1)).score = some s₁ ∧
      (Rec.mk "a" (some 2)).score = some s₂ ∧ s₂ ≤ s₁ :=
  ⟨(C9_score_contract "a").2.2.2.1,
   ⟨1 - 1 / 2, 1 - 2 / 2, rfl, rfl,
     (C9_score_contract "a").2.2.2.2 1 2 (1 - 1 / 2) (1 - 2 / 2)
       (by norm_num) (by norm_num) (by norm_num) rfl rfl⟩⟩

/-- C10: a `thresh_score` of zero is Python-falsy, so line 193 coerces it
to the disabled state: the query behaves exactly as if no threshold had
been sent, and neighbors with score ≤ 0 are retained. -/
theorem C10_zero_threshold_disabled (r : ANNResource) (p : Payload)
    (h : p.thresh_score = some 0) :
    nn_from_payload r p = nn_from_payload r { p with thresh_score := none } := by
  apply nn_from_payload_congr
  refine ⟨rfl, rfl, ?_, ?_, Or.inr rfl⟩
  · simp [includeDistances, effThresh, h]
  · simp [effThresh, h]

/-- C10 witness: with `thresh_score = 0`, the query equals the
threshold-free query and a neighbor of score 0 (≤ 0) is retained. -/
theorem C10_witness :
    nn_from_payload r10 p10 = nn_from_payload r10 { p10 with thresh_score := none } ∧
    nn_from_payload r10 p10 = .ok [⟨"a", some 2⟩] ∧
    (Rec.mk "a" (some 2)).score = some 0 := by
  refine ⟨C10_zero_threshold_disabled r10 p10 rfl, ?_, by norm_num [Rec.score]⟩
  simp [nn_from_payload, primaryNeighbors, nn_from_emb, recs_via_ann_out, finalize,
    effThresh, includeDistances, r10, idx10, p10,
    ANNResource.ids, ANNResource.index]

/-- Fallback-parent engine for C3: querying ordinal 2 for 2 results
returns two other items at distances 9/5 (score 1/10) and 1/5 (score
9/10); the self-match is absent (a duplicate-embedding situation the spec
itself contemplates in step 3 of section 4.4). -/
def idxB3 : AnnoyIndex :=
  ⟨fun _ _ => [], fun i m => if i = 2 ∧ m = 2 then [(0, 9 / 5), (1, 1 / 5)] else [], fun _ => []⟩

/-- C3 fallback parent: `q` at ordinal 2 among `x`, `y`. -/
def rB3 : ANNResource :=
  .mk ["x", "y", "q"] (fun s => if s = "q" then some 2 else none) idxB3 none none none false none

/-- C3 primary engine: querying ordinal 0 for 2 results returns only the
self-match. -/
def idxA3 : AnnoyIndex :=
  ⟨fun _ _ => [], fun i m => if i = 0 ∧ m = 2 then [(0, 0)] else [], fun _ => []⟩

/-- C3 primary resource: holds only `q`, with `rB3` as fallback parent. -/
def rA3 : ANNResource :=
  .mk ["q"] (fun s => if s = "q" then some 0 else none) idxA3 none none (some rB3) false none

/-- C3 query: identifier `q`, `k = 1`, threshold 1/2. -/
def p3 : Payload := ⟨some "q", none, 1, false, false, some (1 / 2)⟩

/-- C3: the spec claims the threshold filter runs exactly once, globally
after backfill, and not at each fallback level.  The code propagates
`thresh_score` inside the payload of the recursive fallback call (line
211), so every level filters its own combined result before truncating to
its deficit — observably different from filtering once globally.  Amended
claim: the filter runs at every level of the recursion, so every neighbor
returned by any resolution (at any level, since every level is itself a
`nn_from_payload` call) has score strictly above the threshold. -/
theorem C3_amended_threshold_per_level (r : ANNResource) (p : Payload) (t : ℚ) (l : List Rec)
    (ht : effThresh p = some t) (hok : nn_from_payload r p = .ok l) :
    ∀ n ∈ l, ∃ s, n.score = some s ∧ t < s := by
  rw [nn_from_payload_eq] at hok
  cases hpn : primaryNeighbors r p with
  | error e => rw [hpn] at hok; simp at hok
  | ok ns =>
    rw [hpn] at hok
    simp only [] at hok
    by_cases hl : ns.length < p.k
    · rw [if_pos hl] at hok
      cases hfb : r.fallback_parent with
      | none =>
        rw [hfb] at hok
        simp only [Except.ok.injEq] at hok
        subst hok
        intro n hn
        exact passesThresh_spec t n (mem_finalize p t ht _ n hn)
      | some parent =>
        rw [hfb] at hok
        simp only [] at hok
        cases hrec : nn_from_payload parent { p with k := p.k - ns.length } with
        | error e => rw [hrec] at hok; simp at hok
        | ok nf =>
          rw [hrec] at hok
          simp only [Except.ok.injEq] at hok
          subst hok
          intro n hn
          exact passesThresh_spec t n (mem_finalize p t ht _ n hn)
    · rw [if_neg hl] at hok
      simp only [Except.ok.injEq] at hok
      subst hok
      intro n hn
      exact passesThresh_spec t n (mem_finalize p t ht _ n hn)

/-- C3 witness: the amended claim applied to the concrete fixture — the
one returned neighbor scores above the threshold. -/
theorem C3_witness :
    ∃ s, (Rec.mk "y" (some (1 / 5))).score = some s ∧ (1 / 2 : ℚ) < s :=
  C3_amended_threshold_per_level rA3 p3 (1 / 2) [⟨"y", some (1 / 5)⟩]
    (by norm_num [effThresh, p3])
    (by
      simp [nn_from_payload, primaryNeighbors, nn_from_id, nn_from_emb, recs_via_ann_out,
        rA3, rB3, idxA3, idxB3, p3, effThresh, includeDistances, passesThresh, finalize,
        ANNResource.ids_d, ANNResource.ids, ANNResource.index, ANNResource.ooi_dynamo_table,
        ANNResource.ooi_ann, Rec.score]
      norm_num [List.filter_cons, passesThresh, Rec.score])
    (Rec.mk "y" (some (1 / 5))) (by simp)

/-- C3 counterexample to the claim as stated: on the fixture the code
(per-level filtering) keeps the high-scoring second engine result at the
fallback level, while the once-globally-filtered semantics
(`nn_from_payload_once`, modelled from the spec's words) truncates the
fallback to its deficit first and ends up empty.  The two disagree, so
the filter is not applied "once, globally". -/
theorem C3_counterexample :
    effThresh p3 = some (1 / 2) ∧
    rA3.fallback_parent = some rB3 ∧
    nn_from_payload rA3 p3 = .ok [⟨"y", some (1 / 5)⟩] ∧
    nn_from_payload_once rA3 p3 = .ok [] ∧
    nn_from_payload rA3 p3 ≠ nn_from_payload_once rA3 p3 := by
  have h1 : nn_from_payload rA3 p3 = .ok [⟨"y", some (1 / 5)⟩] := by
    simp [nn_from_payload, primaryNeighbors, nn_from_id, nn_from_emb, recs_via_ann_out,
      rA3, rB3, idxA3, idxB3, p3, effThresh, includeDistances, passesThresh, finalize,
      ANNResource.ids_d, ANNResource.ids, ANNResource.index, ANNResource.ooi_dynamo_table,
      ANNResource.ooi_ann, Rec.score]
    norm_num [List.filter_cons, passesThresh, Rec.score]
  have h2 : nn_from_payload_once rA3 p3 = .ok [] := by
    simp [nn_from_payload_once, nn_backfill_raw, primaryNeighbors, nn_from_id, nn_from_emb,
      recs_via_ann_out, rA3, rB3, idxA3, idxB3, p3, effThresh, includeDistances, passesThresh,
      finalize, ANNResource.ids_d, ANNResource.ids, ANNResource.index,
      ANNResource.ooi_dynamo_table, ANNResource.ooi_ann, Rec.score]
    norm_num [List.filter_cons, passesThresh, Rec.score]
  refine ⟨by norm_num [effThresh, p3], rfl, h1, h2, ?_⟩
  rw [h1, h2]
  simp

/-- Primary engine for C5: a `k = 3` vector query returns one result. -/
def idxP5 : AnnoyIndex :=
  ⟨fun _ m => if m = 3 then [(0, 0)] else [], fun _ _ => [], fun _ => []⟩

/-- Fallback engine for C5: a `k = 2` vector query returns two results. -/
def idxF5 : AnnoyIndex :=
  ⟨fun _ m => if m = 2 then [(0, 0), (1, 0)] else [], fun _ _ => [], fun _ => []⟩

/-- C5 fallback parent with ids `u`, `v`. -/
def parent5 : ANNResource := .mk ["u", "v"] (fun _ => none) idxF5 none none none false none

/-- C5 primary resource with id `a` and `parent5` as fallback parent. -/
def rP5 : ANNResource := .mk ["a"] (fun _ => none) idxP5 none none (some parent5) false none

/-- C5 query: vector query, `k = 3`, no threshold. -/
def p5 : Payload := ⟨none, some [1], 3, false, false, none⟩

/-- C5 primary result. -/
def P5 : List Rec := [⟨"a", none⟩]

/-- C5 fallback result for the deficit request. -/
def F5 : List Rec := [⟨"u", none⟩, ⟨"v", none⟩]

/-- C5: with a fallback parent set, a primary result shorter than `k` and
no threshold, the code asks the fallback for exactly the deficit
`k - len(primary)` (visible in the hypothesis naming the recursive call's
payload), appends the fallback result after the primary result, and
truncates to `k`: the combined count is `min k (primary + fallback)`, the
primary results form the prefix, and the result never exceeds `k`. -/
theorem C5_backfill_deficit_and_order (r parent : ANNResource) (p : Payload) (P F : List Rec)
    (hth : effThresh p = none)
    (hfb : r.fallback_parent = some parent)
    (hprim : primaryNeighbors r p = .ok P)
    (hlen : P.length < p.k)
    (hfall : nn_from_payload parent { p with k := p.k - P.length } = .ok F) :
    nn_from_payload r p = .ok ((P ++ F).take p.k) ∧
    ((P ++ F).take p.k).length = min p.k (P.length + F.length) ∧
    ((P ++ F).take p.k).take P.length = P ∧
    ((P ++ F).take p.k).length ≤ p.k := by
  refine ⟨?_, ?_, ?_, ?_⟩
  · rw [nn_from_payload_eq, hprim]
    simp only []
    rw [if_pos hlen, hfb]
    simp only []
    rw [hfall]
    simp only [finalize, hth]
  · simp [List.length_take, List.length_append]
  · rw [List.take_take, min_eq_left (le_of_lt hlen), List.take_left]
  · simp [List.length_take]

/-- C5 witness: primary returns 1 of 3 requested, fallback is asked for 2
and supplies 2; all four conclusions hold on the fixture. -/
theorem C5_witness :
    nn_from_payload rP5 p5 = .ok ((P5 ++ F5).take p5.k) ∧
    ((P5 ++ F5).take p5.k).length = min p5.k (P5.length + F5.length) ∧
    ((P5 ++ F5).take p5.k).take P5.length = P5 ∧
    ((P5 ++ F5).take p5.k).length ≤ p5.k :=
  C5_backfill_deficit_and_order rP5 parent5 p5 P5 F5 rfl rfl
    (by
      simp [primaryNeighbors, nn_from_emb, recs_via_ann_out, rP5, idxP5, p5, P5,
        includeDistances, effThresh, ANNResource.ids, ANNResource.index])
    (by norm_num [P5, p5])
    (by
      simp [nn_from_payload, primaryNeighbors, nn_from_emb, recs_via_ann_out, finalize,
        parent5, idxF5, p5, P5, F5, includeDistances, effThresh,
        ANNResource.ids, ANNResource.index, ANNResource.ids_d])

/-- C6 query payload with both `id` and `emb` set. -/
def p6 : Payload := ⟨some "q", some [1, 2], 1, false, false, none⟩

/-- C6 query payload with neither `id` nor `emb`. -/
def pEmpty : Payload := ⟨none, none, 1, false, false, none⟩

/-- C6: the spec claims that a payload with both `id` and `emb`, like one
with neither, is rejected as malformed.  In the code only the
neither-present case raises (line 205); when both are present the `if`
chain (line 196) takes the `id` branch and the vector is ignored.
Amended claim: absence of both keys is the invalid-payload error, and
when an identifier is present the query behaves exactly as if the vector
key were absent. -/
theorem C6_amended_id_precedence (r : ANNResource) (p : Payload) :
    (p.id? = none → p.emb? = none → nn_from_payload r p = .error .invalidPayload) ∧
    (∀ q_id, p.id? = some q_id →
      nn_from_payload r p = nn_from_payload r { p with emb? := none }) := by
  constructor
  · intro h1 h2
    rw [nn_from_payload_eq]
    simp only [primaryNeighbors, h1, h2]
  · intro q_id hq
    apply nn_from_payload_congr
    exact ⟨rfl, rfl, rfl, rfl, Or.inl (by rw [hq]; rfl)⟩

/-- C6 witness: both parts of the amended claim at concrete inputs. -/
theorem C6_witness :
    nn_from_payload r4 pEmpty = .error .invalidPayload ∧
    nn_from_payload r4 p6 = nn_from_payload r4 { p6 with emb? := none } :=
  ⟨(C6_amended_id_precedence r4 pEmpty).1 rfl rfl,
   (C6_amended_id_precedence r4 p6).2 "q" rfl⟩

/-- C6 counterexample to the claim as stated: a payload carrying both an
identifier and a vector is not rejected — the query succeeds through the
identifier path. -/
theorem C6_counterexample :
    p6.id?.isSome = true ∧ p6.emb?.isSome = true ∧
    nn_from_payload r4 p6 = .ok [⟨"w", none⟩] := by
  refine ⟨rfl, rfl, ?_⟩
  simp [nn_from_payload, primaryNeighbors, nn_from_id, recs_via_ann_out, finalize,
    effThresh, includeDistances, r4, idx4, p6,
    ANNResource.ids, ANNResource.ids_d, ANNResource.index,
    ANNResource.ooi_dynamo_table, ANNResource.ooi_ann]
  rfl

/-- Shared engine for C7: a `k = 1` vector query returns ordinal 0. -/
def idxS : AnnoyIndex :=
  ⟨fun _ m => if m = 1 then [(0, 0)] else [], fun _ _ => [], fun _ => []⟩

/-- C7 fresh state that a reload would install. -/
def rFresh : ANNResource :=
  .mk ["b"] (fun s => if s = "b" then some 0 else none) idxS none none none false none

/-- C7 stale resource: `needs_reload` is true and a fresh state is
available. -/
def rStale : ANNResource :=
  .mk ["a"] (fun s => if s = "a" then some 0 else none) idxS none none none true (some rFresh)

/-- C7 query: vector query, `k = 1`. -/
def p7 : Payload := ⟨none, some [1], 1, false, false, none⟩

/-- C7: the spec claims the staleness check runs before every
query-resolution cycle.  In the code `maybe_reload` exists (lines
124-127) but neither `nn_from_payload` nor `on_post` calls it; staleness
is only consulted at construction (line 89) or when a caller invokes
`maybe_reload` explicitly.  Amended claim: query resolution is entirely
insensitive to the staleness state — changing the `needs_reload` flag and
the pending reload state leaves every query result unchanged. -/
theorem C7_amended_no_staleness_check_in_query (r : ANNResource) (b : Bool)
    (o : Option ANNResource) (p : Payload) :
    nn_from_payload (setStale r b o) p = nn_from_payload r p := by
  cases r with
  | mk a b' c d e f g h' =>
    have hp : primaryNeighbors (ANNResource.mk a b' c d e f b o) p
        = primaryNeighbors (ANNResource.mk a b' c d e f g h') p := rfl
    simp only [setStale, nn_from_payload, hp]

/-- C7 counterexample to the claim as stated: the handle is stale
(`needs_reload` is true), and serving the query through `maybe_reload`
(as the spec's step 1 requires) would give a different answer than the
code's query path gives — so the code served a search without the check
having run. -/
theorem C7_counterexample :
    rStale.needs_reload = true ∧
    nn_from_payload rStale p7 = .ok [⟨"a", none⟩] ∧
    nn_from_payload (maybe_reload rStale) p7 = .ok [⟨"b", none⟩] ∧
    nn_from_payload rStale p7 ≠ nn_from_payload (maybe_reload rStale) p7 := by
  have h1 : nn_from_payload rStale p7 = .ok [⟨"a", none⟩] := by
    simp [nn_from_payload, primaryNeighbors, nn_from_emb, recs_via_ann_out, finalize,
      effThresh, includeDistances, rStale, idxS, p7,
      ANNResource.ids, ANNResource.index]
  have hreload : maybe_reload rStale = rFresh := rfl
  have h2 : nn_from_payload (maybe_reload rStale) p7 = .ok [⟨"b", none⟩] := by
    rw [hreload]
    simp [nn_from_payload, primaryNeighbors, nn_from_emb, recs_via_ann_out, finalize,
      effThresh, includeDistances, rFresh, idxS, p7,
      ANNResource.ids, ANNResource.index]
  refine ⟨rfl, h1, h2, ?_⟩
  rw [h1, h2]
  simp

/-- C8: the POST endpoint always answers HTTP 200 — on success with the
serialized records, and for every propagated failure (unparseable body or
any error out of `nn_from_payload`) with an empty list body instead of a
non-200 status. -/
theorem C8_always_200 (r : ANNResource) (req : Except Unit Payload) :
    (on_post r req).status = 200 ∧
    (∀ u, req = .error u → (on_post r req).body = .emptyList) ∧
    (∀ p e, req = .ok p → nn_from_payload r p = .error e →
      (on_post r req).body = .emptyList) := by
  refine ⟨?_, ?_, ?_⟩
  · cases req with
    | error u => rfl
    | ok p =>
      cases h : nn_from_payload r p <;> simp [on_post, h]
  · intro u h
    subst h
    rfl
  · intro p e hreq herr
    subst hreq
    simp [on_post, herr]

/-- C8 witness: a malformed payload (neither `id` nor `emb`) propagates an
error, and the endpoint still answers 200 with an empty list. -/
theorem C8_witness :
    (on_post r4 (.ok pEmpty)).status = 200 ∧ (on_post r4 (.ok pEmpty)).body = .emptyList :=
  ⟨(C8_always_200 r4 (.ok pEmpty)).1,
   (C8_always_200 r4 (.ok pEmpty)).2.2 pEmpty .invalidPayload rfl (by
     rw [nn_from_payload_eq]
     simp [primaryNeighbors, pEmpty])⟩

end AnnApp
